import Mathlib

/-!
Verification of the `echo-otel-middleware` OpenTelemetry middleware for the
echo HTTP framework.

This file contains a shallow embedding of the middleware's source:

* the attribute sanitizer (`prepareTagValue`, `prepareTagName`, `prepareAttrs`);
* the response-capture shim (`responseDumper` from `resp_dumper.go`);
* the request-body dumper, span-status derivation, response dumper and the
  per-request middleware pipeline from `middleware.go`
  (`MiddlewareWithConfig`'s inner handler with its helpers).

Go's effectful code is embedded as pure state-passing functions: the echo
context, the HTTP request/response, and the span are explicit records; the
tracer/propagator collaborators are modelled at their interface boundary
(a span accumulates attributes, error events and a status only while it is
recording, matching the OpenTelemetry SDK contract); the downstream handler
is modelled by the data it contributes (returned error, written bytes,
final status).  Machine strings/bytes are modelled as Lean `String`s
(code-point sequences); Go `int` is `Int`.
-/

/-- Outcome of a Go `error` value.  `simple` is a plain `errors.New`-style
error, `http` carries an HTTP status (implements echo's `HTTPStatusCoder`),
`wrap` is `fmt.Errorf("...: %w", inner)` for a non-nil `inner`, and
`wrapNil` is `fmt.Errorf("...: %w", nil)` — Go's `fmt.Errorf` happily wraps
a nil error into a non-nil one. -/
inductive GoError where
  | simple (msg : String)
  | http (status : Int) (msg : String)
  | wrap (pre : String) (inner : GoError)
  | wrapNil (pre : String)
  deriving DecidableEq, Repr

/-- The rendered message of an error, i.e. Go's `err.Error()`. -/
def GoError.error : GoError → String
  | .simple m => m
  | .http s m => "code=" ++ toString s ++ ", message=" ++ m
  | .wrap p e => p ++ GoError.error e
  | .wrapNil p => p ++ "%!w(<nil>)"

/-- `errors.As(err, &hsc)` for echo's `HTTPStatusCoder`: unwraps `%w` chains. -/
def GoError.statusCode : GoError → Option Int
  | .simple _ => none
  | .http s _ => some s
  | .wrap _ e => GoError.statusCode e
  | .wrapNil _ => none

/-- `fmt.Errorf(pre + "%w", err)` for a possibly-nil `err`: always non-nil. -/
def GoError.wrapErr (pre : String) : Option GoError → GoError
  | some e => .wrap pre e
  | none => .wrapNil pre

/-- OpenTelemetry attribute value: the middleware only builds string,
string-slice and int64 valued attributes. -/
inductive AttrValue where
  | str (s : String)
  | strList (l : List String)
  | int (i : Int)
  deriving DecidableEq, Repr

/-- An OpenTelemetry `attribute.KeyValue`. -/
structure KeyValue where
  key : String
  value : AttrValue
  deriving DecidableEq, Repr

/-- OpenTelemetry span status codes used by the middleware. -/
inductive SpanStatus where
  | unset
  | ok
  | error
  deriving DecidableEq, Repr

/- ### Attribute sanitizer (helpers source file) -/

/-- `prepareTagValue` from the helpers: when `removeNewLine` is set, replace
every `"\n"` by a single space (`strings.ReplaceAll(str, "\n", " ")`). -/
def prepareTagValue (str : String) (removeNewLine : Bool) : String :=
  if !removeNewLine then str
  else String.mk (str.toList.map fun c => if c = '\n' then ' ' else c)

/-- `prepareTagName` from the helpers: a non-positive size is unlimited;
otherwise the key is converted to runes (`[]rune(str)`, i.e. code points) and
truncated to the first `size` runes when longer than `size`. -/
def prepareTagName (str : String) (size : Int) : String :=
  if size ≤ 0 then str
  else
    let result := str.toList
    if (result.length : Int) ≤ size then str
    else String.mk (result.take size.toNat)

/-- `prepareAttrs` from the helpers: every key goes through `prepareTagName`;
a value goes through `prepareTagValue` only when its type is
`attribute.STRING` (all other types, including string slices, are left
untouched). -/
def prepareAttrs (limitNameSize : Int) (removeNewLines : Bool)
    (attrs : List KeyValue) : List KeyValue :=
  attrs.map fun a =>
    { key := prepareTagName a.key limitNameSize
      value :=
        match a.value with
        | .str s => .str (prepareTagValue s removeNewLines)
        | v => v }

/- ### Response-capture shim (`resp_dumper.go`) -/

/-- The wrapped original destination writer (`http.ResponseWriter`).
`failWith = some e` means a `Write` on it fails with `e` (writing nothing);
otherwise writes succeed in full. -/
structure DestWriter where
  written : String
  failWith : Option GoError
  deriving DecidableEq, Repr

/-- One `Write` on the destination writer. -/
def DestWriter.write (w : DestWriter) (b : String) :
    DestWriter × Int × Option GoError :=
  match w.failWith with
  | some e => (w, 0, some e)
  | none => ({ w with written := w.written ++ b }, (b.length : Int), none)

/-- `responseDumper`: the shim wrapping the original writer plus the internal
`bytes.Buffer` (`buf`), whose writes cannot fail. -/
structure ResponseDumper where
  dest : DestWriter
  buf : String
  deriving DecidableEq, Repr

/-- `newResponseDumper`: fresh buffer around a destination writer. -/
def newResponseDumper (dest : DestWriter) : ResponseDumper :=
  { dest := dest, buf := "" }

/-- `io.MultiWriter(resp.Writer, buf).Write(b)`: writes to the destination
first and stops on its error (the buffer is only written when the
destination accepted all bytes; the buffer itself cannot fail). -/
def multiWriterWrite (d : ResponseDumper) (b : String) :
    ResponseDumper × Int × Option GoError :=
  match DestWriter.write d.dest b with
  | (dest', n, some e) => ({ d with dest := dest' }, n, some e)
  | (dest', n, none) => ({ dest := dest', buf := d.buf ++ b }, n, none)

/-- `responseDumper.Write` from `resp_dumper.go`:
`nBytes, err := d.mw.Write(b); return nBytes, fmt.Errorf("error writing response: %w", err)`.
Note the unconditional wrapping: the returned error is non-nil even when the
multi-writer succeeded (`err` = Go `nil`). -/
def ResponseDumper.writeShim (d : ResponseDumper) (b : String) :
    ResponseDumper × Int × Option GoError :=
  match multiWriterWrite d b with
  | (d', nBytes, err) => (d', nBytes, some (GoError.wrapErr "error writing response: " err))

/-- `responseDumper.GetResponse`: the buffered bytes as text. -/
def ResponseDumper.getResponse (d : ResponseDumper) : String := d.buf

/- ### Value-size limiting (missing from the sources; spec-modelled) -/

/-- Modelled from the spec: the value-truncation helper (`limitString`) is
absent from the sources (only its unit test and the `LimitValueSize`
configuration field remain), so it is reconstructed from the spec's
middle-elision policy and the in-repo test expectation
`limitString "05Kj7z2AXCl603gMJu6B23z2sD" 10 = "05Kj7\n---- skipped ----\n3z2sD"`:
a non-positive limit is unlimited, a value no longer than the limit is left
untouched, and an overlong value keeps head and tail windows of half the
limit around a fixed skip marker. -/
def limitString (str : String) (size : Int) : String :=
  if size ≤ 0 then str
  else
    let result := str.toList
    if (result.length : Int) ≤ size then str
    else
      String.mk (result.take (size.toNat / 2)) ++ "\n---- skipped ----\n" ++
        String.mk (result.drop (result.length - (size.toNat - size.toNat / 2)))

/- ### Data model for the middleware pipeline (`middleware.go`) -/

/-- A Go `context.Context` as seen by this middleware: the request's original
(pre-extraction) context, the result of `Propagator.Extract` on it, and the
context returned by `tracer.Start`, which carries the middleware's span. -/
inductive GoContext where
  | base (id : Nat)
  | extractedFrom (parent : GoContext)
  | spanContext (parent : GoContext)
  deriving DecidableEq, Repr

/-- Whether a context carries a span introduced by this middleware
(`tracer.Start`'s returned context). -/
def GoContext.hasMiddlewareSpan : GoContext → Bool
  | .spanContext _ => true
  | _ => false

/-- An `io.ReadCloser` request body: its remaining bytes, and whether a read
fails (`failAfter = some k`: `io.ReadAll` yields the first `k` bytes and a
non-nil error, as an `io.Reader` may). -/
structure BodyState where
  data : String
  failAfter : Option Nat
  deriving DecidableEq, Repr

/-- `io.ReadAll(body)`: returns the bytes read plus the error, and the
advanced reader. -/
def readAll (b : BodyState) : (String × Option GoError) × BodyState :=
  match b.failAfter with
  | none => ((b.data, none), { b with data := "" })
  | some k =>
      ((String.mk (b.data.toList.take k), some (.simple "read error")),
       { b with data := String.mk (b.data.toList.drop k) })

/-- The `*http.Request` fields the middleware touches.  `ctx` is the value of
`request.Context()`. -/
structure Request where
  ctx : GoContext
  method : String
  proto : String
  host : String
  urlScheme : String
  userAgent : String
  requestURI : String
  headers : List (String × List String)
  body : Option BodyState
  deriving DecidableEq, Repr

/-- The echo response object: its header map, current status, and whether
`echo.UnwrapResponse` succeeds on it. -/
structure Response where
  headers : List (String × List String)
  status : Int
  unwrapOk : Bool
  deriving DecidableEq, Repr

/-- The `*echo.Context` surface used by the middleware.  `hasEcho` models
`c.Echo() != nil`; `routeParams`/`params` model `c.RouteInfo().Parameters`
and `c.Param`. -/
structure EchoCtx where
  request : Option Request
  response : Option Response
  hasEcho : Bool
  path : String
  routeParams : List String
  params : List (String × String)
  realIP : String
  deriving DecidableEq, Repr

/-- `Header.Get`: first value for the key, or `""`. -/
def headerGet (h : List (String × List String)) (k : String) : String :=
  match h.find? (fun kv => kv.1 = k) with
  | some (_, v :: _) => v
  | _ => ""

/-- An OpenTelemetry span as the middleware observes it: attributes, error
events and status accumulate only while the span is recording (the
OpenTelemetry SDK contract for sampled-out spans). -/
structure Span where
  name : String
  recording : Bool
  attrs : List KeyValue
  errorEvents : List GoError
  status : SpanStatus
  ended : Bool
  deriving DecidableEq, Repr

/-- `span.SetAttributes`. -/
def Span.setAttributes (s : Span) (kvs : List KeyValue) : Span :=
  if s.recording then { s with attrs := s.attrs ++ kvs } else s

/-- `span.RecordError`. -/
def Span.recordError (s : Span) (e : GoError) : Span :=
  if s.recording then { s with errorEvents := s.errorEvents ++ [e] } else s

/-- `span.SetStatus`. -/
def Span.setStatus (s : Span) (code : SpanStatus) : Span :=
  if s.recording then { s with status := code } else s

/-- `span.End`. -/
def Span.endSpan (s : Span) : Span := { s with ended := true }

/-- The middleware configuration (`OtelConfig`).  `skipper`/`bodySkipper`
are `none` when the corresponding Go field is nil; `tracerRecords` models
the configured `TracerProvider`'s sampling decision for spans it starts.
The propagator is modelled structurally by `GoContext.extractedFrom`. -/
structure OtelConfig where
  skipper : Option (EchoCtx → Bool)
  bodySkipper : Option (EchoCtx → Bool × Bool)
  tracerRecords : Bool
  areHeadersDump : Bool
  isBodyDump : Bool
  removeNewLines : Bool
  limitNameSize : Int
  limitValueSize : Int

/-- `middleware.DefaultSkipper`: never skip. -/
def defaultSkipper : EchoCtx → Bool := fun _ => false

/-- `defaultBodySkipper`: never exclude bodies. -/
def defaultBodySkipper : EchoCtx → Bool × Bool := fun _ => (false, false)

/-- `setDefaultValues`: fill nil `Skipper`/`BodySkipper` with the defaults
(the tracer provider and propagator defaults are global collaborators and
keep their modelled fields). -/
def setDefaultValues (c : OtelConfig) : OtelConfig :=
  { c with
      skipper := some (c.skipper.getD defaultSkipper)
      bodySkipper := some (c.bodySkipper.getD defaultBodySkipper) }

/-- `setAttr(span, config, attrs...)`: attach attributes after sanitizing
them with `prepareAttrs`. -/
def setAttr (span : Span) (config : OtelConfig) (attrs : List KeyValue) : Span :=
  span.setAttributes (prepareAttrs config.limitNameSize config.removeNewLines attrs)

/-- `shouldSkipMiddleware`: skip when the skip predicate fires or the
request/response object is absent. -/
def shouldSkipMiddleware (c : EchoCtx) (config : OtelConfig) : Bool :=
  (config.skipper.getD defaultSkipper) c || c.request.isNone || c.response.isNone

/-- `getRequestID` from the helpers: inbound `X-Request-Id` header, else the
outbound one, else `""`. -/
def getRequestID (c : EchoCtx) : String :=
  let requestID := headerGet ((c.request.map Request.headers).getD []) "X-Request-Id"
  if requestID = "" then headerGet ((c.response.map Response.headers).getD []) "X-Request-Id"
  else requestID

/-- `formatKey(k, prefix)`: lower-case the header name, replace `-` by `_`,
and namespace it under the direction marker. -/
def formatKey (k : String) (pre : String) : String :=
  pre ++ "." ++ String.mk (k.toList.map fun ch =>
    if Char.toLower ch = '-' then '_' else Char.toLower ch)

/-- `dumpHeaders`: one string-slice attribute per header name. -/
def dumpHeaders (pre : String) (h : List (String × List String)) : List KeyValue :=
  h.map fun kv => { key := formatKey kv.1 pre, value := .strList kv.2 }

/-- `c.Param(name)`. -/
def paramValue (c : EchoCtx) (name : String) : String :=
  ((c.params.find? (fun kv => kv.1 = name)).map Prod.snd).getD ""

/-- `addPathParameters`: the route template (when non-empty) and one
`http.path.<name>` attribute per route parameter. -/
def addPathParameters (c : EchoCtx) (config : OtelConfig) (span : Span) : Span :=
  let span := if c.path ≠ "" then setAttr span config [⟨"http.route", .str c.path⟩] else span
  c.routeParams.foldl
    (fun sp paramName =>
      setAttr sp config [⟨"http.path." ++ paramName, .str (paramValue c paramName)⟩])
    span

/-- `dumpRequestBody`: nothing happens on a nil body.  Otherwise the
attribute value starts as `"[excluded]"`; when the request body is not
skipped it is replaced by `io.ReadAll`'s result, and only on a successful
read is the body closed and replaced by a fresh readable buffer over the
same bytes.  The (possibly partial) value is attached in every non-nil-body
case. -/
def dumpRequestBody (request : Request) (config : OtelConfig) (span : Span)
    (skipReqBody : Bool) : Request × Span :=
  match request.body with
  | none => (request, span)
  | some body0 =>
      let step : String × Request :=
        if !skipReqBody then
          let res := readAll body0
          let reqBody := res.1.1
          if res.1.2 = none then
            (reqBody, { request with body := some { data := reqBody, failAfter := none } })
          else
            (reqBody, { request with body := some res.2 })
        else ("[excluded]", request)
      (step.2, setAttr span config [⟨"http.request.body", .str step.1⟩])

/-- The external `response.Dumper` collaborator engaged by
`setupResponseDumper`, at its interface boundary: the captured response text
(`GetResponse`) and the final status seen through it (`StatusCode`). -/
structure RespDumper where
  captured : String
  statusCode : Int
  deriving DecidableEq, Repr

/-- `setSpanStatus`: `status >= 400` is Error, else `status >= 200` is Ok,
else Unset. -/
def setSpanStatus (span : Span) (status : Int) : Span :=
  if status ≥ 400 then span.setStatus .error
  else if status ≥ 200 then span.setStatus .ok
  else span.setStatus .unset

/-- `dumpResponseHeaders`. -/
def dumpResponseHeaders (c : EchoCtx) (config : OtelConfig) (span : Span) : Span :=
  if config.areHeadersDump then
    setAttr span config (dumpHeaders "http.response.headers" ((c.response.map Response.headers).getD []))
  else span

/-- `dumpResponseBody`: a non-empty captured body is replaced by
`"[excluded]"` when the response-body skip flag was set. -/
def dumpResponseBody (respDumper : RespDumper) (config : OtelConfig) (span : Span)
    (skipRespBody : Bool) : Span :=
  let respBody := respDumper.captured
  let respBody := if respBody ≠ "" ∧ skipRespBody then "[excluded]" else respBody
  setAttr span config [⟨"http.response.body", .str respBody⟩]

/-- `responseStatus`: the capture shim's status when engaged, else the
unwrapped framework response status, else a status extracted from the
handler error, else 0. -/
def responseStatus (c : EchoCtx) (respDumper : Option RespDumper)
    (err : Option GoError) : Int :=
  match respDumper with
  | some d => d.statusCode
  | none =>
      match c.response with
      | some resp =>
          if resp.unwrapOk then resp.status
          else match err with
            | some e => (e.statusCode).getD 0
            | none => 0
      | none =>
          match err with
          | some e => (e.statusCode).getD 0
          | none => 0

/-- `dumpResp`: derive and set the span status, attach the status-code
attribute only for a positive status, dump response headers, and dump the
captured response body when the shim was engaged. -/
def dumpResp (c : EchoCtx) (config : OtelConfig) (span : Span)
    (respDumper : Option RespDumper) (err : Option GoError) (skipRespBody : Bool) : Span :=
  let status := responseStatus c respDumper err
  let span := setSpanStatus span status
  let span :=
    if status > 0 then setAttr span config [⟨"http.response.status_code", .int status⟩]
    else span
  let span := dumpResponseHeaders c config span
  if config.isBodyDump then
    match respDumper with
    | some d => dumpResponseBody d config span skipRespBody
    | none => span
  else span

/-- `createSpanName`: method plus route template, plus the raw URI when it
differs from the template. -/
def createSpanName (request : Request) (path : String) : String :=
  let opName := "HTTP " ++ request.method ++ " URL: " ++ path
  if path ≠ request.requestURI then opName ++ " URI: " ++ request.requestURI
  else opName

/-- `createSpanOptions`: the standard start attributes. -/
def createSpanOptions (request : Request) (realIP requestID : String) : List KeyValue :=
  [⟨"client_ip", .str realIP⟩,
   ⟨"request_id", .str requestID⟩,
   ⟨"user_agent", .str request.userAgent⟩,
   ⟨"http.method", .str request.method⟩,
   ⟨"http.proto", .str request.proto⟩,
   ⟨"http.host", .str request.host⟩,
   ⟨"http.scheme", .str request.urlScheme⟩]

/-- The downstream handler (`next`), modelled by the data it contributes:
its returned error, the response bytes it writes, and the response status it
produces.  The handler is assumed not to swap the request object itself (the
middleware's finalizer overwrites it in any case). -/
structure Handler where
  ret : Option GoError
  writes : String
  status : Int
  deriving DecidableEq, Repr

/-- Effect of running the downstream handler on the echo context: the
response it produces carries its status. -/
def applyNext (c : EchoCtx) (next : Handler) : EchoCtx :=
  { c with response := c.response.map fun r => { r with status := next.status } }

/-- Observable outcome of one middleware invocation: the returned error, the
final echo context (after the deferred finalizer), the final span if one was
created, how many spans were started/ended, the errors passed to the
framework's `HTTPErrorHandler`, and a snapshot of the echo context exactly
as the downstream handler received it. -/
structure MWResult where
  err : Option GoError
  c : EchoCtx
  spanFinal : Option Span
  startedSpans : Nat
  endedSpans : Nat
  errHandlerCalls : List GoError
  nextObserved : Option EchoCtx
  deriving DecidableEq, Repr

/-- The skip branch of the middleware: `return next(c)` with the context
completely untouched. -/
def passthroughRun (c0 : EchoCtx) (next : Handler) : MWResult :=
  { err := next.ret
    c := applyNext c0 next
    spanFinal := none
    startedSpans := 0
    endedSpans := 0
    errHandlerCalls := []
    nextObserved := some c0 }

/-- `createSpan`'s span as started by the tracer: named from method/route,
server kind, standard start attributes (recorded only when the provider
samples the span in). -/
def spanAtStart (config : OtelConfig) (c0 : EchoCtx) (request0 : Request) : Span :=
  { name := createSpanName request0 c0.path
    recording := config.tracerRecords
    attrs := if config.tracerRecords then createSpanOptions request0 c0.realIP (getRequestID c0) else []
    errorEvents := []
    status := .unset
    ended := false }

/-- The body-skip flags: `config.BodySkipper(c)` when body dumping is on,
`(false, false)` otherwise. -/
def skipsOf (config : OtelConfig) (c0 : EchoCtx) : Bool × Bool :=
  if config.isBodyDump then (config.bodySkipper.getD defaultBodySkipper) c0
  else (false, false)

/-- The request-phase span work of `dumpReq` before body dumping: path
parameters, then optionally the request headers. -/
def dumpReqSpanPre (c0 : EchoCtx) (config : OtelConfig) (span : Span)
    (request0 : Request) : Span :=
  let span1 := addPathParameters c0 config span
  if config.areHeadersDump then
    setAttr span1 config (dumpHeaders "http.request.headers" request0.headers)
  else span1

/-- `dumpReq`: path parameters, optionally request headers, optionally the
request body; engages the response dumper exactly when body dumping is on.
Returns the (possibly body-reset) request, the span after the request phase,
and whether the response-capture shim was engaged. -/
def dumpReq (c0 : EchoCtx) (config : OtelConfig) (span : Span) (request0 : Request)
    (skipReqBody : Bool) : Request × Span × Bool :=
  let span2 := dumpReqSpanPre c0 config span request0
  if config.isBodyDump then
    let rs := dumpRequestBody request0 config span2 skipReqBody
    (rs.1, rs.2, true)
  else (request0, span2, false)

/-- `processNextHandler`: the handler's error, the span after recording it
(error event plus `echo.error` attribute), and the errors handed to the
framework's `HTTPErrorHandler` (only when `c.Echo()` is non-nil). -/
def processNextHandler (c0 : EchoCtx) (next : Handler) (config : OtelConfig)
    (span : Span) : Option GoError × Span × List GoError :=
  match next.ret with
  | some e =>
      (some e,
       setAttr (span.recordError e) config [⟨"echo.error", .str e.error⟩],
       if c0.hasEcho then [e] else [])
  | none => (none, span, [])

/-- The non-recording fast path: install the span-bearing context, invoke
the handler, hand an error to the framework's error handler, and let the
deferred finalizer restore the saved context and end the span — no
attribute/body/header work at all. -/
def fastRun (config : OtelConfig) (c0 : EchoCtx) (request0 : Request)
    (next : Handler) : MWResult :=
  let savedCtx := request0.ctx
  let span0 := spanAtStart config c0 request0
  let spanCtx := GoContext.spanContext (GoContext.extractedFrom savedCtx)
  let c1 := { c0 with request := some { request0 with ctx := spanCtx } }
  let c2 := applyNext c1 next
  let errHandlerCalls :=
    match next.ret with
    | some e => if c0.hasEcho then [e] else []
    | none => []
  { err := next.ret
    c := { c2 with request := some { request0 with ctx := savedCtx } }
    spanFinal := some span0.endSpan
    startedSpans := 1
    endedSpans := 1
    errHandlerCalls := errHandlerCalls
    nextObserved := some c1 }

/-- The recording path: body-skip flags, request phase (`dumpReq`), install
the span-bearing context, invoke the handler (`processNextHandler`),
response phase (`dumpResp`), and the deferred finalizer (restore the saved
context on the request object, end the span). -/
def recordingRun (config : OtelConfig) (c0 : EchoCtx) (request0 : Request)
    (next : Handler) : MWResult :=
  let savedCtx := request0.ctx
  let span0 := spanAtStart config c0 request0
  let spanCtx := GoContext.spanContext (GoContext.extractedFrom savedCtx)
  let skips := skipsOf config c0
  let dumped := dumpReq c0 config span0 request0 skips.1
  let request1 := dumped.1
  let c1 := { c0 with request := some { request1 with ctx := spanCtx } }
  let c2 := applyNext c1 next
  let respDumper : Option RespDumper :=
    if dumped.2.2 then some { captured := next.writes, statusCode := next.status } else none
  let processed := processNextHandler c0 next config dumped.2.1
  let span5 := dumpResp c2 config processed.2.1 respDumper processed.1 skips.2
  { err := next.ret
    c := { c2 with request := some { request1 with ctx := savedCtx } }
    spanFinal := some span5.endSpan
    startedSpans := 1
    endedSpans := 1
    errHandlerCalls := processed.2.2
    nextObserved := some c1 }

/-- The traced branch of the middleware (`createSpan` through the deferred
`endSpan`), for a present request object `request0`: the fast path when the
started span is not recording, the full recording path otherwise. -/
def tracedRun (config : OtelConfig) (c0 : EchoCtx) (request0 : Request)
    (next : Handler) : MWResult :=
  if !(spanAtStart config c0 request0).recording then fastRun config c0 request0 next
  else recordingRun config c0 request0 next

/-- One invocation of `MiddlewareWithConfig(config0)`'s handler on an echo
context, with `next` the downstream handler. -/
def middlewareRun (config0 : OtelConfig) (c0 : EchoCtx) (next : Handler) : MWResult :=
  let config := setDefaultValues config0
  if shouldSkipMiddleware c0 config then passthroughRun c0 next
  else
    match c0.request with
    | none => passthroughRun c0 next
    | some request0 => tracedRun config c0 request0 next

/- ### Auxiliary lemmas -/

theorem toList_string_append (a b : String) : (a ++ b).toList = a.toList ++ b.toList := rfl

theorem toList_string_mk (l : List Char) : (String.mk l).toList = l := rfl

/- ### C7 -/

/-- C7: the claim states that the response-capture shim's `Write` returns
exactly the destination's error — in particular nil on success.  The code
(`resp_dumper.go`) instead wraps the multi-writer's error unconditionally
with `fmt.Errorf("error writing response: %w", err)`, so on a successful
destination write (input `"hi"`, destination accepting everything) both the
destination and the buffer receive the bytes but the returned error is the
non-nil wrapping of Go `nil` — contradicting the claim (and the `io.Writer`
contract). -/
theorem C7_write_wraps_nil_error :
    ResponseDumper.writeShim (newResponseDumper { written := "", failWith := none }) "hi" =
      ({ dest := { written := "hi", failWith := none }, buf := "hi" }, 2,
        some (GoError.wrapNil "error writing response: ")) ∧
    (some (GoError.wrapNil "error writing response: ") ≠ (none : Option GoError)) := by
  decide

/- ### C8 -/

/-- C8 counterexample: the claim states the value policy (newline stripping)
applies uniformly to string-list-valued attributes.  On the concrete
attribute `k ↦ ["a\n b"?]`-style input below, with newline removal enabled
and no key limit, `prepareAttrs` leaves the string-slice value untouched
(`"a\nb"` keeps its newline), while the uniform policy would produce
`"a b"`. -/
theorem C8_counterexample :
    prepareAttrs 0 true [⟨"k", .strList ["a\nb"]⟩] = [⟨"k", .strList ["a\nb"]⟩] ∧
    AttrValue.strList ["a\nb"] ≠ AttrValue.strList ["a b"] := by
  decide

/-- C8 (amended): the sanitizer truncates every attribute key with
`prepareTagName`, applies the newline-stripping value policy only to
string-valued attributes, and passes all non-string values — including
string lists such as dumped header values, and integers — through
unmodified. -/
theorem C8_value_policy_only_strings (limit : Int) (rm : Bool) (k s : String)
    (l : List String) (i : Int) (attrs : List KeyValue) :
    prepareAttrs limit rm [⟨k, .str s⟩] =
      [⟨prepareTagName k limit, .str (prepareTagValue s rm)⟩] ∧
    prepareAttrs limit rm [⟨k, .strList l⟩] = [⟨prepareTagName k limit, .strList l⟩] ∧
    prepareAttrs limit rm [⟨k, .int i⟩] = [⟨prepareTagName k limit, .int i⟩] ∧
    (prepareAttrs limit rm attrs).map KeyValue.key =
      attrs.map (fun a => prepareTagName a.key limit) := by
  refine ⟨rfl, rfl, rfl, ?_⟩
  simp [prepareAttrs]

/- ### C9 -/

/-- C9: truncation boundary.  For a positive limit `L`, a key of exactly `L`
code points is untouched by `prepareTagName` and one of `L + 1` code points
is truncated to its first `L` code points (a prefix of the rune sequence, so
no multi-byte sequence is split); the spec-modelled value limiter
`limitString` likewise leaves a value of length `L` untouched and alters one
of length `L + 1`; a non-positive limit never truncates either. -/
theorem C9_truncation_boundary (s t u : String) (L M : Int)
    (hL : 0 < L) (hM : M ≤ 0)
    (hs : (s.toList.length : Int) = L) (ht : (t.toList.length : Int) = L + 1) :
    prepareTagName s L = s ∧
    prepareTagName t L = String.mk (t.toList.take L.toNat) ∧
    prepareTagName t L ≠ t ∧
    limitString s L = s ∧
    limitString t L ≠ t ∧
    prepareTagName u M = u ∧
    limitString u M = u := by
  have hL' : ¬ (L ≤ 0) := not_le.mpr hL
  have hgt : ¬ ((t.toList.length : Int) ≤ L) := by omega
  have htd : t.toList.length = L.toNat + 1 := by omega
  have c2 : prepareTagName t L = String.mk (t.toList.take L.toNat) := by
    simp only [prepareTagName]
    rw [if_neg hL', if_neg hgt]
  have c5eq : limitString t L =
      String.mk (t.toList.take (L.toNat / 2)) ++ "\n---- skipped ----\n" ++
        String.mk (t.toList.drop (t.toList.length - (L.toNat - L.toNat / 2))) := by
    simp only [limitString]
    rw [if_neg hL', if_neg hgt]
  refine ⟨?_, c2, ?_, ?_, ?_, ?_, ?_⟩
  · simp only [prepareTagName]
    rw [if_neg hL', if_pos (le_of_eq hs)]
  · intro heq
    rw [c2] at heq
    have hd : t.toList.take L.toNat = t.data := congrArg String.data heq
    have hlen := congrArg List.length hd
    rw [List.length_take] at hlen
    rw [min_eq_left (by omega)] at hlen
    have hTL : t.data.length = L.toNat + 1 := htd
    omega
  · simp only [limitString]
    rw [if_neg hL', if_pos (le_of_eq hs)]
  · intro heq
    rw [c5eq] at heq
    have hd : t.toList.take (L.toNat / 2) ++ ("\n---- skipped ----\n" : String).data ++
        t.toList.drop (t.toList.length - (L.toNat - L.toNat / 2)) = t.data :=
      congrArg String.data heq
    have hlen := congrArg List.length hd
    rw [List.length_append, List.length_append, List.length_take, List.length_drop] at hlen
    have hmarker : ("\n---- skipped ----\n" : String).data.length = 19 := by decide
    rw [hmarker] at hlen
    rw [min_eq_left (by omega)] at hlen
    have hTL : t.data.length = L.toNat + 1 := htd
    omega
  · simp only [prepareTagName]
    rw [if_pos hM]
  · simp only [limitString]
    rw [if_pos hM]

/-- C9 witness: the boundary theorem applied at limit 3 with the key/value
`"abc"` (length 3, untouched), `"abcd"` (length 4, truncated) and limit 0 on
`"xy"` (untouched). -/
theorem C9_truncation_boundary_witness :
    ((0 : Int) < 3 ∧ (0 : Int) ≤ 0 ∧
      (("abc" : String).toList.length : Int) = 3 ∧
      (("abcd" : String).toList.length : Int) = 3 + 1) ∧
    (prepareTagName "abc" 3 = "abc" ∧
      prepareTagName "abcd" 3 = String.mk (("abcd" : String).toList.take (3 : Int).toNat) ∧
      prepareTagName "abcd" 3 ≠ "abcd" ∧
      limitString "abc" 3 = "abc" ∧
      limitString "abcd" 3 ≠ "abcd" ∧
      prepareTagName "xy" 0 = "xy" ∧
      limitString "xy" 0 = "xy") :=
  ⟨by decide,
   C9_truncation_boundary "abc" "abcd" "xy" 3 0 (by decide) (by decide) (by decide) (by decide)⟩

/- ### C10 -/

/-- C10: when the request body is structurally absent (`nil`), the body
dumper returns the request and span completely unchanged — no
`http.request.body` attribute (neither text nor `"[excluded]"`) is attached,
whatever the body-skip flag and configuration. -/
theorem C10_nil_body_no_attribute (r : Request) (cfg : OtelConfig) (sp : Span)
    (skip : Bool) (h : r.body = none) :
    dumpRequestBody r cfg sp skip = (r, sp) := by
  simp [dumpRequestBody, h]

/-- C10 witness: the nil-body theorem at a concrete request, for both values
of the skip flag. -/
theorem C10_nil_body_no_attribute_witness :
    ({ ctx := .base 0, method := "GET", proto := "HTTP/1.1", host := "h",
       urlScheme := "", userAgent := "", requestURI := "/", headers := [],
       body := none : Request }.body = none) ∧
    dumpRequestBody
      { ctx := .base 0, method := "GET", proto := "HTTP/1.1", host := "h",
        urlScheme := "", userAgent := "", requestURI := "/", headers := [], body := none }
      { skipper := none, bodySkipper := none, tracerRecords := true,
        areHeadersDump := true, isBodyDump := true, removeNewLines := false,
        limitNameSize := 0, limitValueSize := 0 }
      { name := "s", recording := true, attrs := [], errorEvents := [],
        status := .unset, ended := false }
      true =
      ({ ctx := .base 0, method := "GET", proto := "HTTP/1.1", host := "h",
         urlScheme := "", userAgent := "", requestURI := "/", headers := [], body := none },
       { name := "s", recording := true, attrs := [], errorEvents := [],
         status := .unset, ended := false }) :=
  ⟨rfl,
   C10_nil_body_no_attribute _ _ _ true rfl⟩

/- ### Lemmas about the middleware pipeline -/

theorem setDefaultValues_fields (cfg : OtelConfig) :
    (setDefaultValues cfg).tracerRecords = cfg.tracerRecords ∧
    (setDefaultValues cfg).areHeadersDump = cfg.areHeadersDump ∧
    (setDefaultValues cfg).isBodyDump = cfg.isBodyDump ∧
    (setDefaultValues cfg).removeNewLines = cfg.removeNewLines ∧
    (setDefaultValues cfg).limitNameSize = cfg.limitNameSize := by
  simp [setDefaultValues]

theorem middlewareRun_skip (cfg : OtelConfig) (c0 : EchoCtx) (next : Handler)
    (h : shouldSkipMiddleware c0 (setDefaultValues cfg) = true) :
    middlewareRun cfg c0 next = passthroughRun c0 next := by
  simp [middlewareRun, h]

theorem middlewareRun_traced (cfg : OtelConfig) (c0 : EchoCtx) (next : Handler)
    (r0 : Request)
    (h : shouldSkipMiddleware c0 (setDefaultValues cfg) = false)
    (hreq : c0.request = some r0) :
    middlewareRun cfg c0 next = tracedRun (setDefaultValues cfg) c0 r0 next := by
  simp [middlewareRun, h, hreq]

theorem tracedRun_startedSpans (cfg : OtelConfig) (c0 : EchoCtx) (r0 : Request)
    (next : Handler) : (tracedRun cfg c0 r0 next).startedSpans = 1 := by
  simp only [tracedRun]
  split <;> rfl

theorem tracedRun_endedSpans (cfg : OtelConfig) (c0 : EchoCtx) (r0 : Request)
    (next : Handler) : (tracedRun cfg c0 r0 next).endedSpans = 1 := by
  simp only [tracedRun]
  split <;> rfl

theorem tracedRun_span_ended (cfg : OtelConfig) (c0 : EchoCtx) (r0 : Request)
    (next : Handler) :
    ∃ sp, (tracedRun cfg c0 r0 next).spanFinal = some sp ∧ sp.ended = true := by
  simp only [tracedRun]
  split
  · exact ⟨_, rfl, rfl⟩
  · exact ⟨_, rfl, rfl⟩

theorem tracedRun_ctx_restored (cfg : OtelConfig) (c0 : EchoCtx) (r0 : Request)
    (next : Handler) :
    ∃ req, (tracedRun cfg c0 r0 next).c.request = some req ∧ req.ctx = r0.ctx := by
  simp only [tracedRun]
  split
  · exact ⟨_, rfl, rfl⟩
  · exact ⟨_, rfl, rfl⟩

/- ### Concrete fixtures for witnesses and counterexamples -/

/-- A recording configuration with header and body dumping enabled. -/
def cfgW : OtelConfig :=
  { skipper := none, bodySkipper := none, tracerRecords := true, areHeadersDump := true,
    isBodyDump := true, removeNewLines := false, limitNameSize := 0, limitValueSize := 0 }

/-- A plain GET request carrying a request id and a readable body. -/
def reqW : Request :=
  { ctx := .base 7, method := "GET", proto := "HTTP/1.1", host := "example.com",
    urlScheme := "", userAgent := "ua", requestURI := "/user/123",
    headers := [("X-Request-Id", ["rid"])], body := some { data := "test", failAfter := none } }

/-- An echo context around `reqW` with a routed path parameter. -/
def ctxW : EchoCtx :=
  { request := some reqW, response := some { headers := [], status := 200, unwrapOk := true },
    hasEcho := true, path := "/user/:id", routeParams := ["id"], params := [("id", "123")],
    realIP := "1.2.3.4" }

/-- A succeeding downstream handler writing `"123"` with status 200. -/
def nextOkW : Handler := { ret := none, writes := "123", status := 200 }

/-- A failing downstream handler returning a plain error. -/
def nextErrW : Handler := { ret := some (.simple "oh no"), writes := "", status := 500 }

/- ### C1 -/

/-- C1: for every request that is not skipped, exactly one span is started
and exactly one span is ended — whatever the handler returns and whether or
not the span records — and on every exit path (the non-recording fast path
included) the finalizer puts the original pre-extraction context back on
the request object before the middleware returns. -/
theorem C1_span_lifecycle (cfg : OtelConfig) (c0 : EchoCtx) (next : Handler) (r0 : Request)
    (hskip : shouldSkipMiddleware c0 (setDefaultValues cfg) = false)
    (hreq : c0.request = some r0) :
    (middlewareRun cfg c0 next).startedSpans = 1 ∧
    (middlewareRun cfg c0 next).endedSpans = 1 ∧
    (∃ sp, (middlewareRun cfg c0 next).spanFinal = some sp ∧ sp.ended = true) ∧
    (∃ req, (middlewareRun cfg c0 next).c.request = some req ∧ req.ctx = r0.ctx) := by
  rw [middlewareRun_traced cfg c0 next r0 hskip hreq]
  exact ⟨tracedRun_startedSpans _ _ _ _, tracedRun_endedSpans _ _ _ _,
    tracedRun_span_ended _ _ _ _, tracedRun_ctx_restored _ _ _ _⟩

/-- C1 witness: the lifecycle theorem at the concrete fixture with an
erroring handler. -/
theorem C1_span_lifecycle_witness :
    (shouldSkipMiddleware ctxW (setDefaultValues cfgW) = false ∧ ctxW.request = some reqW) ∧
    ((middlewareRun cfgW ctxW nextErrW).startedSpans = 1 ∧
      (middlewareRun cfgW ctxW nextErrW).endedSpans = 1 ∧
      (∃ sp, (middlewareRun cfgW ctxW nextErrW).spanFinal = some sp ∧ sp.ended = true) ∧
      (∃ req, (middlewareRun cfgW ctxW nextErrW).c.request = some req ∧ req.ctx = reqW.ctx)) :=
  ⟨⟨by decide, rfl⟩, C1_span_lifecycle cfgW ctxW nextErrW reqW (by decide) rfl⟩

/- ### C3 -/

/-- C3: when the skip predicate fires or the request/response object is
structurally absent, the middleware just invokes the downstream handler and
returns its result unmodified: no span is started, the final context is
exactly the handler's own effect on the incoming context, and the handler
observes the incoming echo context completely untouched — in particular no
span introduced by this middleware is in its ambient context. -/
theorem C3_skip_passthrough (cfg : OtelConfig) (c0 : EchoCtx) (next : Handler)
    (h : shouldSkipMiddleware c0 (setDefaultValues cfg) = true) :
    (middlewareRun cfg c0 next).err = next.ret ∧
    (middlewareRun cfg c0 next).startedSpans = 0 ∧
    (middlewareRun cfg c0 next).spanFinal = none ∧
    (middlewareRun cfg c0 next).nextObserved = some c0 ∧
    (middlewareRun cfg c0 next).c = applyNext c0 next := by
  rw [middlewareRun_skip cfg c0 next h]
  exact ⟨rfl, rfl, rfl, rfl, rfl⟩

/-- C3 witness: the passthrough theorem on a configuration whose skip
predicate always fires. -/
theorem C3_skip_passthrough_witness :
    shouldSkipMiddleware ctxW (setDefaultValues { cfgW with skipper := some fun _ => true }) = true ∧
    ((middlewareRun { cfgW with skipper := some fun _ => true } ctxW nextOkW).err = nextOkW.ret ∧
      (middlewareRun { cfgW with skipper := some fun _ => true } ctxW nextOkW).startedSpans = 0 ∧
      (middlewareRun { cfgW with skipper := some fun _ => true } ctxW nextOkW).spanFinal = none ∧
      (middlewareRun { cfgW with skipper := some fun _ => true } ctxW nextOkW).nextObserved = some ctxW ∧
      (middlewareRun { cfgW with skipper := some fun _ => true } ctxW nextOkW).c = applyNext ctxW nextOkW) :=
  ⟨by decide, C3_skip_passthrough { cfgW with skipper := some fun _ => true } ctxW nextOkW (by decide)⟩

/- ### Preservation lemmas for span operations -/

theorem setAttributes_recording (s : Span) (l : List KeyValue) :
    (s.setAttributes l).recording = s.recording := by
  unfold Span.setAttributes; split <;> rfl

theorem setAttributes_errorEvents (s : Span) (l : List KeyValue) :
    (s.setAttributes l).errorEvents = s.errorEvents := by
  unfold Span.setAttributes; split <;> rfl

theorem setAttributes_attrs_of_recording (s : Span) (l : List KeyValue)
    (h : s.recording = true) : (s.setAttributes l).attrs = s.attrs ++ l := by
  simp [Span.setAttributes, h]

theorem mem_setAttributes (s : Span) (l : List KeyValue) (kv : KeyValue)
    (h : kv ∈ s.attrs) : kv ∈ (s.setAttributes l).attrs := by
  unfold Span.setAttributes; split
  · exact List.mem_append_left _ h
  · exact h

theorem setAttr_recording (s : Span) (cfg : OtelConfig) (l : List KeyValue) :
    (setAttr s cfg l).recording = s.recording := setAttributes_recording _ _

theorem setAttr_errorEvents (s : Span) (cfg : OtelConfig) (l : List KeyValue) :
    (setAttr s cfg l).errorEvents = s.errorEvents := setAttributes_errorEvents _ _

theorem setAttr_attrs_of_recording (s : Span) (cfg : OtelConfig) (l : List KeyValue)
    (h : s.recording = true) :
    (setAttr s cfg l).attrs = s.attrs ++ prepareAttrs cfg.limitNameSize cfg.removeNewLines l :=
  setAttributes_attrs_of_recording _ _ h

theorem mem_setAttr (s : Span) (cfg : OtelConfig) (l : List KeyValue) (kv : KeyValue)
    (h : kv ∈ s.attrs) : kv ∈ (setAttr s cfg l).attrs := mem_setAttributes _ _ _ h

theorem recordError_recording (s : Span) (e : GoError) :
    (s.recordError e).recording = s.recording := by
  unfold Span.recordError; split <;> rfl

theorem recordError_attrs (s : Span) (e : GoError) :
    (s.recordError e).attrs = s.attrs := by
  unfold Span.recordError; split <;> rfl

theorem recordError_errorEvents_of_recording (s : Span) (e : GoError)
    (h : s.recording = true) : (s.recordError e).errorEvents = s.errorEvents ++ [e] := by
  simp [Span.recordError, h]

theorem setStatus_recording (s : Span) (c : SpanStatus) :
    (s.setStatus c).recording = s.recording := by
  unfold Span.setStatus; split <;> rfl

theorem setStatus_attrs (s : Span) (c : SpanStatus) :
    (s.setStatus c).attrs = s.attrs := by
  unfold Span.setStatus; split <;> rfl

theorem setStatus_errorEvents (s : Span) (c : SpanStatus) :
    (s.setStatus c).errorEvents = s.errorEvents := by
  unfold Span.setStatus; split <;> rfl

theorem setSpanStatus_recording (s : Span) (st : Int) :
    (setSpanStatus s st).recording = s.recording := by
  unfold setSpanStatus
  split
  · exact setStatus_recording _ _
  · split <;> exact setStatus_recording _ _

theorem setSpanStatus_attrs (s : Span) (st : Int) :
    (setSpanStatus s st).attrs = s.attrs := by
  unfold setSpanStatus
  split
  · exact setStatus_attrs _ _
  · split <;> exact setStatus_attrs _ _

theorem setSpanStatus_errorEvents (s : Span) (st : Int) :
    (setSpanStatus s st).errorEvents = s.errorEvents := by
  unfold setSpanStatus
  split
  · exact setStatus_errorEvents _ _
  · split <;> exact setStatus_errorEvents _ _

theorem endSpan_attrs (s : Span) : s.endSpan.attrs = s.attrs := rfl

theorem endSpan_errorEvents (s : Span) : s.endSpan.errorEvents = s.errorEvents := rfl

theorem foldl_params_recording (c : EchoCtx) (cfg : OtelConfig) (l : List String) (s : Span) :
    (l.foldl
      (fun sp paramName =>
        setAttr sp cfg [⟨"http.path." ++ paramName, .str (paramValue c paramName)⟩]) s).recording =
      s.recording := by
  induction l generalizing s with
  | nil => rfl
  | cons a tl ih =>
      simp only [List.foldl_cons]
      rw [ih]
      exact setAttr_recording _ _ _

theorem foldl_params_errorEvents (c : EchoCtx) (cfg : OtelConfig) (l : List String) (s : Span) :
    (l.foldl
      (fun sp paramName =>
        setAttr sp cfg [⟨"http.path." ++ paramName, .str (paramValue c paramName)⟩]) s).errorEvents =
      s.errorEvents := by
  induction l generalizing s with
  | nil => rfl
  | cons a tl ih =>
      simp only [List.foldl_cons]
      rw [ih]
      exact setAttr_errorEvents _ _ _

theorem mem_foldl_params (c : EchoCtx) (cfg : OtelConfig) (l : List String) (s : Span)
    (kv : KeyValue) (h : kv ∈ s.attrs) :
    kv ∈ (l.foldl
      (fun sp paramName =>
        setAttr sp cfg [⟨"http.path." ++ paramName, .str (paramValue c paramName)⟩]) s).attrs := by
  induction l generalizing s with
  | nil => exact h
  | cons a tl ih =>
      simp only [List.foldl_cons]
      exact ih _ (mem_setAttr _ _ _ _ h)

theorem addPathParameters_recording (c : EchoCtx) (cfg : OtelConfig) (s : Span) :
    (addPathParameters c cfg s).recording = s.recording := by
  unfold addPathParameters
  rw [foldl_params_recording]
  split
  · exact setAttr_recording _ _ _
  · rfl

theorem addPathParameters_errorEvents (c : EchoCtx) (cfg : OtelConfig) (s : Span) :
    (addPathParameters c cfg s).errorEvents = s.errorEvents := by
  unfold addPathParameters
  rw [foldl_params_errorEvents]
  split
  · exact setAttr_errorEvents _ _ _
  · rfl

theorem mem_addPathParameters (c : EchoCtx) (cfg : OtelConfig) (s : Span) (kv : KeyValue)
    (h : kv ∈ s.attrs) : kv ∈ (addPathParameters c cfg s).attrs := by
  unfold addPathParameters
  apply mem_foldl_params
  split
  · exact mem_setAttr _ _ _ _ h
  · exact h

theorem dumpRequestBody_span_recording (r : Request) (cfg : OtelConfig) (s : Span)
    (sk : Bool) : (dumpRequestBody r cfg s sk).2.recording = s.recording := by
  unfold dumpRequestBody
  cases r.body
  · rfl
  · exact setAttr_recording _ _ _

theorem dumpRequestBody_span_errorEvents (r : Request) (cfg : OtelConfig) (s : Span)
    (sk : Bool) : (dumpRequestBody r cfg s sk).2.errorEvents = s.errorEvents := by
  unfold dumpRequestBody
  cases r.body
  · rfl
  · exact setAttr_errorEvents _ _ _

theorem mem_dumpRequestBody_span (r : Request) (cfg : OtelConfig) (s : Span)
    (sk : Bool) (kv : KeyValue) (h : kv ∈ s.attrs) :
    kv ∈ (dumpRequestBody r cfg s sk).2.attrs := by
  unfold dumpRequestBody
  cases r.body
  · exact h
  · exact mem_setAttr _ _ _ _ h

theorem dumpReq_span_recording (c : EchoCtx) (cfg : OtelConfig) (s : Span)
    (r : Request) (sk : Bool) : (dumpReq c cfg s r sk).2.1.recording = s.recording := by
  by_cases hB : cfg.isBodyDump <;> by_cases hH : cfg.areHeadersDump <;>
    simp [dumpReq, dumpReqSpanPre, hB, hH, dumpRequestBody_span_recording,
      setAttr_recording, addPathParameters_recording]

theorem dumpReq_span_errorEvents (c : EchoCtx) (cfg : OtelConfig) (s : Span)
    (r : Request) (sk : Bool) : (dumpReq c cfg s r sk).2.1.errorEvents = s.errorEvents := by
  by_cases hB : cfg.isBodyDump <;> by_cases hH : cfg.areHeadersDump <;>
    simp [dumpReq, dumpReqSpanPre, hB, hH, dumpRequestBody_span_errorEvents,
      setAttr_errorEvents, addPathParameters_errorEvents]

theorem dumpResponseHeaders_recording (c : EchoCtx) (cfg : OtelConfig) (s : Span) :
    (dumpResponseHeaders c cfg s).recording = s.recording := by
  unfold dumpResponseHeaders
  split
  · exact setAttr_recording _ _ _
  · rfl

theorem dumpResponseHeaders_errorEvents (c : EchoCtx) (cfg : OtelConfig) (s : Span) :
    (dumpResponseHeaders c cfg s).errorEvents = s.errorEvents := by
  unfold dumpResponseHeaders
  split
  · exact setAttr_errorEvents _ _ _
  · rfl

theorem mem_dumpResponseHeaders (c : EchoCtx) (cfg : OtelConfig) (s : Span)
    (kv : KeyValue) (h : kv ∈ s.attrs) : kv ∈ (dumpResponseHeaders c cfg s).attrs := by
  unfold dumpResponseHeaders
  split
  · exact mem_setAttr _ _ _ _ h
  · exact h

theorem dumpResp_errorEvents (c : EchoCtx) (cfg : OtelConfig) (s : Span)
    (rd : Option RespDumper) (err : Option GoError) (srb : Bool) :
    (dumpResp c cfg s rd err srb).errorEvents = s.errorEvents := by
  unfold dumpResp
  split
  · split
    · unfold dumpResponseBody
      rw [setAttr_errorEvents, dumpResponseHeaders_errorEvents]
      split
      · rw [setAttr_errorEvents, setSpanStatus_errorEvents]
      · rw [setSpanStatus_errorEvents]
    · rw [dumpResponseHeaders_errorEvents]
      split
      · rw [setAttr_errorEvents, setSpanStatus_errorEvents]
      · rw [setSpanStatus_errorEvents]
  · rw [dumpResponseHeaders_errorEvents]
    split
    · rw [setAttr_errorEvents, setSpanStatus_errorEvents]
    · rw [setSpanStatus_errorEvents]

theorem mem_dumpResp (c : EchoCtx) (cfg : OtelConfig) (s : Span)
    (rd : Option RespDumper) (err : Option GoError) (srb : Bool)
    (kv : KeyValue) (h : kv ∈ s.attrs) : kv ∈ (dumpResp c cfg s rd err srb).attrs := by
  have hbase : kv ∈ (dumpResponseHeaders c cfg
      (if responseStatus c rd err > 0 then
        setAttr (setSpanStatus s (responseStatus c rd err)) cfg
          [⟨"http.response.status_code", .int (responseStatus c rd err)⟩]
      else setSpanStatus s (responseStatus c rd err))).attrs := by
    apply mem_dumpResponseHeaders
    split
    · apply mem_setAttr
      rw [setSpanStatus_attrs]
      exact h
    · rw [setSpanStatus_attrs]
      exact h
  unfold dumpResp
  split
  · split
    · unfold dumpResponseBody
      apply mem_setAttr
      exact hbase
    · exact hbase
  · exact hbase

theorem tracedRun_recording (cfg : OtelConfig) (c0 : EchoCtx) (r0 : Request)
    (next : Handler) (h : cfg.tracerRecords = true) :
    tracedRun cfg c0 r0 next = recordingRun cfg c0 r0 next := by
  simp [tracedRun, spanAtStart, h]

theorem prepareAttrs_single_str (n : Int) (r : Bool) (k v : String) :
    prepareAttrs n r [⟨k, .str v⟩] = [⟨prepareTagName k n, .str (prepareTagValue v r)⟩] := rfl

/- ### C2 -/

/-- C2 (amended): for every non-skipped request whose span is recording,
when the downstream handler returns a non-nil error `e` the middleware
returns exactly `e` (the same value, never wrapped or replaced), records `e`
on the span as an error event and as an `echo.error` string attribute whose
value is `e`'s rendered message after the configured attribute sanitization
(identical to the message under the default sanitization settings), and —
the framework instance being present — hands `e` to the framework's
registered error handler. -/
theorem C2_handler_error (cfg : OtelConfig) (c0 : EchoCtx) (next : Handler)
    (r0 : Request) (e : GoError)
    (hskip : shouldSkipMiddleware c0 (setDefaultValues cfg) = false)
    (hreq : c0.request = some r0)
    (hrec : cfg.tracerRecords = true)
    (herr : next.ret = some e)
    (hecho : c0.hasEcho = true) :
    (middlewareRun cfg c0 next).err = some e ∧
    (middlewareRun cfg c0 next).errHandlerCalls = [e] ∧
    (∃ sp, (middlewareRun cfg c0 next).spanFinal = some sp ∧
      e ∈ sp.errorEvents ∧
      (⟨prepareTagName "echo.error" cfg.limitNameSize,
        .str (prepareTagValue e.error cfg.removeNewLines)⟩ : KeyValue) ∈ sp.attrs) := by
  rw [middlewareRun_traced cfg c0 next r0 hskip hreq,
    tracedRun_recording _ _ _ _ (show (setDefaultValues cfg).tracerRecords = true from hrec)]
  have hrec3 : ((dumpReq c0 (setDefaultValues cfg)
      (spanAtStart (setDefaultValues cfg) c0 r0) r0
      (skipsOf (setDefaultValues cfg) c0).1).2.1).recording = true := by
    rw [dumpReq_span_recording]
    simpa [spanAtStart] using hrec
  simp only [recordingRun]
  refine ⟨herr, ?_, ?_⟩
  · simp only [processNextHandler, herr, hecho, if_true]
  · refine ⟨_, rfl, ?_, ?_⟩
    · rw [endSpan_errorEvents, dumpResp_errorEvents]
      simp only [processNextHandler, herr]
      rw [setAttr_errorEvents,
        recordError_errorEvents_of_recording _ _ hrec3]
      exact List.mem_append_right _ (List.mem_singleton.mpr rfl)
    · rw [endSpan_attrs]
      apply mem_dumpResp
      simp only [processNextHandler, herr]
      rw [setAttr_attrs_of_recording _ _ _
        (by rw [recordError_recording]; exact hrec3)]
      rw [prepareAttrs_single_str]
      exact List.mem_append_right _ (List.mem_singleton.mpr rfl)

theorem dumpReqSpanPre_recording (c : EchoCtx) (cfg : OtelConfig) (s : Span)
    (r : Request) : (dumpReqSpanPre c cfg s r).recording = s.recording := by
  unfold dumpReqSpanPre
  split
  · rw [setAttr_recording, addPathParameters_recording]
  · rw [addPathParameters_recording]

theorem dumpReq_eq_of_bodyDump (c : EchoCtx) (cfg : OtelConfig) (s : Span)
    (r : Request) (sk : Bool) (hbd : cfg.isBodyDump = true) :
    dumpReq c cfg s r sk =
      ((dumpRequestBody r cfg (dumpReqSpanPre c cfg s r) sk).1,
       (dumpRequestBody r cfg (dumpReqSpanPre c cfg s r) sk).2, true) := by
  simp [dumpReq, hbd]

theorem mem_processNextHandler (c0 : EchoCtx) (next : Handler) (cfg : OtelConfig)
    (s : Span) (kv : KeyValue) (h : kv ∈ s.attrs) :
    kv ∈ (processNextHandler c0 next cfg s).2.1.attrs := by
  unfold processNextHandler
  cases next.ret
  · exact h
  · apply mem_setAttr
    rw [recordError_attrs]
    exact h

theorem dumpRequestBody_success (r : Request) (cfg : OtelConfig) (s : Span)
    (b : BodyState) (hb : r.body = some b) (hfa : b.failAfter = none) :
    dumpRequestBody r cfg s false =
      ({ r with body := some { data := b.data, failAfter := none } },
       setAttr s cfg [⟨"http.request.body", .str b.data⟩]) := by
  simp [dumpRequestBody, hb, readAll, hfa]

theorem dumpRequestBody_failure (r : Request) (cfg : OtelConfig) (s : Span)
    (b : BodyState) (k : Nat) (hb : r.body = some b) (hfa : b.failAfter = some k) :
    dumpRequestBody r cfg s false =
      ({ r with body := some { data := String.mk (b.data.toList.drop k), failAfter := some k } },
       setAttr s cfg [⟨"http.request.body", .str (String.mk (b.data.toList.take k))⟩]) := by
  simp [dumpRequestBody, hb, readAll, hfa]

/- ### C5 -/

/-- C5 (amended): with body dump enabled, the request-side skip flag false
and a successful body read, the downstream handler observes exactly the
bytes that were read and attached — the dump replaces the body with a fresh
readable buffer over the same bytes — and the span's `http.request.body`
attribute holds exactly those bytes after the configured value sanitization,
hence the identical bytes whenever newline-removal is off (the default). -/
theorem C5_body_roundtrip (cfg : OtelConfig) (c0 : EchoCtx) (next : Handler)
    (r0 : Request) (b : BodyState) (sr : Bool)
    (hskip : shouldSkipMiddleware c0 (setDefaultValues cfg) = false)
    (hreq : c0.request = some r0)
    (hrec : cfg.tracerRecords = true)
    (hbd : cfg.isBodyDump = true)
    (hbs : (cfg.bodySkipper.getD defaultBodySkipper) c0 = (false, sr))
    (hb : r0.body = some b) (hfa : b.failAfter = none) :
    (∃ cN rq, (middlewareRun cfg c0 next).nextObserved = some cN ∧
      cN.request = some rq ∧ rq.body = some { data := b.data, failAfter := none }) ∧
    (∃ sp, (middlewareRun cfg c0 next).spanFinal = some sp ∧
      (⟨prepareTagName "http.request.body" cfg.limitNameSize,
        .str (prepareTagValue b.data cfg.removeNewLines)⟩ : KeyValue) ∈ sp.attrs) ∧
    (cfg.removeNewLines = false → prepareTagValue b.data cfg.removeNewLines = b.data) := by
  rw [middlewareRun_traced cfg c0 next r0 hskip hreq,
    tracedRun_recording _ _ _ _ (show (setDefaultValues cfg).tracerRecords = true from hrec)]
  have hbd' : (setDefaultValues cfg).isBodyDump = true := hbd
  have hbs' : ((setDefaultValues cfg).bodySkipper.getD defaultBodySkipper) c0 = (false, sr) := hbs
  have hskips1 : (skipsOf (setDefaultValues cfg) c0).1 = false := by
    unfold skipsOf
    rw [if_pos hbd', hbs']
  have h2rec : (dumpReqSpanPre c0 (setDefaultValues cfg)
      (spanAtStart (setDefaultValues cfg) c0 r0) r0).recording = true := by
    rw [dumpReqSpanPre_recording]
    simpa [spanAtStart] using hrec
  simp only [recordingRun]
  rw [hskips1, dumpReq_eq_of_bodyDump _ _ _ _ _ hbd',
    dumpRequestBody_success _ _ _ b hb hfa]
  refine ⟨⟨_, _, rfl, rfl, rfl⟩, ⟨_, rfl, ?_⟩, fun h => by rw [h]; simp [prepareTagValue]⟩
  rw [endSpan_attrs]
  apply mem_dumpResp
  apply mem_processNextHandler
  show (⟨prepareTagName "http.request.body" cfg.limitNameSize,
      .str (prepareTagValue b.data cfg.removeNewLines)⟩ : KeyValue) ∈
    (setAttr (dumpReqSpanPre c0 (setDefaultValues cfg)
      (spanAtStart (setDefaultValues cfg) c0 r0) r0) (setDefaultValues cfg)
      [⟨"http.request.body", .str b.data⟩]).attrs
  rw [setAttr_attrs_of_recording _ _ _ h2rec, prepareAttrs_single_str]
  exact List.mem_append_right _ (List.mem_singleton.mpr rfl)

/- ### C6 -/

/-- C6 (amended): a failing body read is tolerated — the handler is still
invoked and the middleware's result is exactly the handler's (the failure
aborts nothing), and the body reference is left as the partially-consumed
original reader rather than being replaced by a fresh buffer — but the
`http.request.body` attribute is still attached, holding exactly the bytes
that were read before the failure (possibly empty), after value
sanitization. -/
theorem C6_body_read_failure (cfg : OtelConfig) (c0 : EchoCtx) (next : Handler)
    (r0 : Request) (b : BodyState) (k : Nat) (sr : Bool)
    (hskip : shouldSkipMiddleware c0 (setDefaultValues cfg) = false)
    (hreq : c0.request = some r0)
    (hrec : cfg.tracerRecords = true)
    (hbd : cfg.isBodyDump = true)
    (hbs : (cfg.bodySkipper.getD defaultBodySkipper) c0 = (false, sr))
    (hb : r0.body = some b) (hfa : b.failAfter = some k) :
    (middlewareRun cfg c0 next).err = next.ret ∧
    (∃ cN rq, (middlewareRun cfg c0 next).nextObserved = some cN ∧
      cN.request = some rq ∧
      rq.body = some { data := String.mk (b.data.toList.drop k), failAfter := some k }) ∧
    (∃ sp, (middlewareRun cfg c0 next).spanFinal = some sp ∧
      (⟨prepareTagName "http.request.body" cfg.limitNameSize,
        .str (prepareTagValue (String.mk (b.data.toList.take k))
          cfg.removeNewLines)⟩ : KeyValue) ∈ sp.attrs) := by
  rw [middlewareRun_traced cfg c0 next r0 hskip hreq,
    tracedRun_recording _ _ _ _ (show (setDefaultValues cfg).tracerRecords = true from hrec)]
  have hbd' : (setDefaultValues cfg).isBodyDump = true := hbd
  have hbs' : ((setDefaultValues cfg).bodySkipper.getD defaultBodySkipper) c0 = (false, sr) := hbs
  have hskips1 : (skipsOf (setDefaultValues cfg) c0).1 = false := by
    unfold skipsOf
    rw [if_pos hbd', hbs']
  have h2rec : (dumpReqSpanPre c0 (setDefaultValues cfg)
      (spanAtStart (setDefaultValues cfg) c0 r0) r0).recording = true := by
    rw [dumpReqSpanPre_recording]
    simpa [spanAtStart] using hrec
  simp only [recordingRun]
  rw [hskips1, dumpReq_eq_of_bodyDump _ _ _ _ _ hbd',
    dumpRequestBody_failure _ _ _ b k hb hfa]
  refine ⟨trivial, ⟨_, _, rfl, rfl, rfl⟩, ⟨_, rfl, ?_⟩⟩
  rw [endSpan_attrs]
  apply mem_dumpResp
  apply mem_processNextHandler
  show (⟨prepareTagName "http.request.body" cfg.limitNameSize,
      .str (prepareTagValue (String.mk (b.data.toList.take k)) cfg.removeNewLines)⟩ : KeyValue) ∈
    (setAttr (dumpReqSpanPre c0 (setDefaultValues cfg)
      (spanAtStart (setDefaultValues cfg) c0 r0) r0) (setDefaultValues cfg)
      [⟨"http.request.body", .str (String.mk (b.data.toList.take k))⟩]).attrs
  rw [setAttr_attrs_of_recording _ _ _ h2rec, prepareAttrs_single_str]
  exact List.mem_append_right _ (List.mem_singleton.mpr rfl)

/-- `cfgW` with the tracer sampling spans out (non-recording). -/
def cfgNRW : OtelConfig := { cfgW with tracerRecords := false }

/-- `cfgW` with newline removal enabled. -/
def cfgNLW : OtelConfig := { cfgW with removeNewLines := true }

/-- `ctxW` with a request body containing a newline. -/
def ctxNLW : EchoCtx :=
  { ctxW with request := some { reqW with body := some { data := "a\nb", failAfter := none } } }

/-- `ctxW` with a request body whose read fails after one byte. -/
def ctxFailW : EchoCtx :=
  { ctxW with request := some { reqW with body := some { data := "ab", failAfter := some 1 } } }

/-- C2 counterexample: on the non-recording fast path (span sampled out) the
middleware returns the handler error and invokes the framework error
handler, but records nothing on the span: no error event and no
`echo.error` attribute — so the claim, quantified over every non-skipped
request, fails at this input. -/
theorem C2_counterexample :
    shouldSkipMiddleware ctxW (setDefaultValues cfgNRW) = false ∧
    (middlewareRun cfgNRW ctxW nextErrW).err = some (.simple "oh no") ∧
    (middlewareRun cfgNRW ctxW nextErrW).errHandlerCalls = [.simple "oh no"] ∧
    ((middlewareRun cfgNRW ctxW nextErrW).spanFinal.map Span.errorEvents) = some [] ∧
    ((middlewareRun cfgNRW ctxW nextErrW).spanFinal.map
      (fun sp => sp.attrs.filter (fun kv => kv.key == "echo.error"))) = some [] := by
  decide

/-- C2 witness: the amended handler-error theorem at the concrete fixture. -/
theorem C2_handler_error_witness :
    (shouldSkipMiddleware ctxW (setDefaultValues cfgW) = false ∧
      ctxW.request = some reqW ∧ cfgW.tracerRecords = true ∧
      nextErrW.ret = some (.simple "oh no") ∧ ctxW.hasEcho = true) ∧
    ((middlewareRun cfgW ctxW nextErrW).err = some (.simple "oh no") ∧
      (middlewareRun cfgW ctxW nextErrW).errHandlerCalls = [.simple "oh no"] ∧
      (∃ sp, (middlewareRun cfgW ctxW nextErrW).spanFinal = some sp ∧
        GoError.simple "oh no" ∈ sp.errorEvents ∧
        (⟨prepareTagName "echo.error" cfgW.limitNameSize,
          .str (prepareTagValue (GoError.simple "oh no").error
            cfgW.removeNewLines)⟩ : KeyValue) ∈ sp.attrs)) :=
  ⟨⟨by decide, rfl, rfl, rfl, rfl⟩,
   C2_handler_error cfgW ctxW nextErrW reqW (.simple "oh no")
     (by decide) rfl rfl rfl rfl⟩

/-- C5 counterexample: with newline removal enabled and a request body
containing a newline, the handler observes the raw bytes `"a\nb"` while the
span's `http.request.body` attribute holds the sanitized `"a b"` — the
attached attribute is not the bytes the handler observes, so the claim as
stated fails at this input. -/
theorem C5_counterexample :
    ((middlewareRun cfgNLW ctxNLW nextOkW).nextObserved.map
      (fun c => c.request.map (fun r => r.body))) =
      some (some (some { data := "a\nb", failAfter := none })) ∧
    ((middlewareRun cfgNLW ctxNLW nextOkW).spanFinal.map
      (fun sp => sp.attrs.filter (fun kv => kv.key == "http.request.body"))) =
      some [⟨"http.request.body", .str "a b"⟩] ∧
    ("a b" : String) ≠ "a\nb" := by
  decide

/-- C5 witness: the amended round-trip theorem at the concrete fixture with
body `"test"`. -/
theorem C5_body_roundtrip_witness :
    (shouldSkipMiddleware ctxW (setDefaultValues cfgW) = false ∧
      ctxW.request = some reqW ∧ cfgW.tracerRecords = true ∧ cfgW.isBodyDump = true ∧
      (cfgW.bodySkipper.getD defaultBodySkipper) ctxW = (false, false) ∧
      reqW.body = some { data := "test", failAfter := none }) ∧
    ((∃ cN rq, (middlewareRun cfgW ctxW nextOkW).nextObserved = some cN ∧
        cN.request = some rq ∧ rq.body = some { data := "test", failAfter := none }) ∧
      (∃ sp, (middlewareRun cfgW ctxW nextOkW).spanFinal = some sp ∧
        (⟨prepareTagName "http.request.body" cfgW.limitNameSize,
          .str (prepareTagValue "test" cfgW.removeNewLines)⟩ : KeyValue) ∈ sp.attrs) ∧
      (cfgW.removeNewLines = false →
        prepareTagValue "test" cfgW.removeNewLines = "test")) :=
  ⟨⟨by decide, rfl, rfl, rfl, by decide, rfl⟩,
   C5_body_roundtrip cfgW ctxW nextOkW reqW { data := "test", failAfter := none } false
     (by decide) rfl rfl rfl (by decide) rfl rfl⟩

/-- C6 counterexample: when the body read fails after one byte of `"ab"`,
the span still receives an `http.request.body` attribute holding the
partial content `"a"` — contradicting the claim that no body content is
attached on a read failure. -/
theorem C6_counterexample :
    (readAll { data := "ab", failAfter := some 1 }).1.2 = some (.simple "read error") ∧
    ((middlewareRun cfgW ctxFailW nextOkW).spanFinal.map
      (fun sp => sp.attrs.filter (fun kv => kv.key == "http.request.body"))) =
      some [⟨"http.request.body", .str "a"⟩] ∧
    AttrValue.str "a" ≠ AttrValue.str "" := by
  decide

/-- C6 witness: the amended read-failure theorem at the concrete fixture. -/
theorem C6_body_read_failure_witness :
    (shouldSkipMiddleware ctxFailW (setDefaultValues cfgW) = false ∧
      ctxFailW.request = some { reqW with body := some { data := "ab", failAfter := some 1 } } ∧
      cfgW.tracerRecords = true ∧ cfgW.isBodyDump = true ∧
      (cfgW.bodySkipper.getD defaultBodySkipper) ctxFailW = (false, false)) ∧
    ((middlewareRun cfgW ctxFailW nextOkW).err = nextOkW.ret ∧
      (∃ cN rq, (middlewareRun cfgW ctxFailW nextOkW).nextObserved = some cN ∧
        cN.request = some rq ∧
        rq.body = some { data := String.mk (("ab" : String).toList.drop 1), failAfter := some 1 }) ∧
      (∃ sp, (middlewareRun cfgW ctxFailW nextOkW).spanFinal = some sp ∧
        (⟨prepareTagName "http.request.body" cfgW.limitNameSize,
          .str (prepareTagValue (String.mk (("ab" : String).toList.take 1))
            cfgW.removeNewLines)⟩ : KeyValue) ∈ sp.attrs)) :=
  ⟨⟨by decide, rfl, rfl, rfl, by decide⟩,
   C6_body_read_failure cfgW ctxFailW nextOkW
     { reqW with body := some { data := "ab", failAfter := some 1 } }
     { data := "ab", failAfter := some 1 } 1 false
     (by decide) rfl rfl rfl (by decide) rfl rfl⟩

/- ### C4 machinery: the integer-valued attributes of a span -/

/-- Whether an attribute value is integer-typed (the status-code attribute
is the only one the middleware produces). -/
def AttrValue.isInt : AttrValue → Bool
  | .int _ => true
  | _ => false

/-- The integer-valued attributes of an attribute list, in order. -/
def intAttrs (l : List KeyValue) : List KeyValue :=
  l.filter fun kv => kv.value.isInt

theorem intAttrs_append (a b : List KeyValue) :
    intAttrs (a ++ b) = intAttrs a ++ intAttrs b := List.filter_append a b

theorem intAttrs_prepared_str (n : Int) (r : Bool) (k v : String) :
    intAttrs (prepareAttrs n r [⟨k, .str v⟩]) = [] := rfl

theorem intAttrs_prepared_int (n : Int) (r : Bool) (k : String) (i : Int) :
    intAttrs (prepareAttrs n r [⟨k, .int i⟩]) = [⟨prepareTagName k n, .int i⟩] := rfl

theorem intAttrs_prepared_headers (n : Int) (r : Bool) (p : String)
    (hs : List (String × List String)) :
    intAttrs (prepareAttrs n r (dumpHeaders p hs)) = [] := by
  induction hs with
  | nil => rfl
  | cons a tl ih =>
      simp only [dumpHeaders, List.map_cons, prepareAttrs] at ih ⊢
      simp only [intAttrs, List.filter_cons] at ih ⊢
      simpa [AttrValue.isInt] using ih

theorem setAttr_status (s : Span) (cfg : OtelConfig) (l : List KeyValue) :
    (setAttr s cfg l).status = s.status := by
  unfold setAttr Span.setAttributes
  split <;> rfl

theorem dumpResponseHeaders_status (c : EchoCtx) (cfg : OtelConfig) (s : Span) :
    (dumpResponseHeaders c cfg s).status = s.status := by
  unfold dumpResponseHeaders
  split
  · exact setAttr_status _ _ _
  · rfl

theorem dumpResponseBody_status (d : RespDumper) (cfg : OtelConfig) (s : Span)
    (srb : Bool) : (dumpResponseBody d cfg s srb).status = s.status := by
  unfold dumpResponseBody
  exact setAttr_status _ _ _

theorem dumpResponseBody_recording (d : RespDumper) (cfg : OtelConfig) (s : Span)
    (srb : Bool) : (dumpResponseBody d cfg s srb).recording = s.recording := by
  unfold dumpResponseBody
  exact setAttr_recording _ _ _

theorem dumpResponseHeaders_intAttrs (c : EchoCtx) (cfg : OtelConfig) (s : Span)
    (hrec : s.recording = true) :
    intAttrs (dumpResponseHeaders c cfg s).attrs = intAttrs s.attrs := by
  unfold dumpResponseHeaders
  split
  · rw [setAttr_attrs_of_recording _ _ _ hrec, intAttrs_append,
      intAttrs_prepared_headers, List.append_nil]
  · rfl

theorem dumpResponseBody_intAttrs (d : RespDumper) (cfg : OtelConfig) (s : Span)
    (srb : Bool) (hrec : s.recording = true) :
    intAttrs (dumpResponseBody d cfg s srb).attrs = intAttrs s.attrs := by
  unfold dumpResponseBody
  rw [setAttr_attrs_of_recording _ _ _ hrec, intAttrs_append,
    intAttrs_prepared_str, List.append_nil]

theorem dumpResp_status_of_recording (c : EchoCtx) (cfg : OtelConfig) (s : Span)
    (rd : Option RespDumper) (err : Option GoError) (srb : Bool)
    (hrec : s.recording = true) :
    (dumpResp c cfg s rd err srb).status =
      (if 400 ≤ responseStatus c rd err then SpanStatus.error
       else if 200 ≤ responseStatus c rd err then SpanStatus.ok
       else SpanStatus.unset) := by
  have hcore : (setSpanStatus s (responseStatus c rd err)).status =
      (if 400 ≤ responseStatus c rd err then SpanStatus.error
       else if 200 ≤ responseStatus c rd err then SpanStatus.ok
       else SpanStatus.unset) := by
    simp only [setSpanStatus, Span.setStatus, hrec, if_true]
    split
    · rfl
    · split <;> rfl
  unfold dumpResp
  split
  · split
    · rw [dumpResponseBody_status, dumpResponseHeaders_status]
      split
      · rw [setAttr_status]
        exact hcore
      · exact hcore
    · rw [dumpResponseHeaders_status]
      split
      · rw [setAttr_status]
        exact hcore
      · exact hcore
  · rw [dumpResponseHeaders_status]
    split
    · rw [setAttr_status]
      exact hcore
    · exact hcore

theorem statusPhase_recording (c : EchoCtx) (cfg : OtelConfig) (s : Span) (st : Int)
    (hrec : s.recording = true) :
    (dumpResponseHeaders c cfg
      (if st > 0 then
        setAttr (setSpanStatus s st) cfg [⟨"http.response.status_code", .int st⟩]
      else setSpanStatus s st)).recording = true := by
  rw [dumpResponseHeaders_recording]
  split
  · rw [setAttr_recording, setSpanStatus_recording]
    exact hrec
  · rw [setSpanStatus_recording]
    exact hrec

theorem statusPhase_intAttrs (c : EchoCtx) (cfg : OtelConfig) (s : Span) (st : Int)
    (hrec : s.recording = true) :
    intAttrs (dumpResponseHeaders c cfg
      (if st > 0 then
        setAttr (setSpanStatus s st) cfg [⟨"http.response.status_code", .int st⟩]
      else setSpanStatus s st)).attrs =
      intAttrs s.attrs ++
        (if st > 0 then
          [⟨prepareTagName "http.response.status_code" cfg.limitNameSize, .int st⟩]
        else []) := by
  have h1 : (setSpanStatus s st).recording = true := by
    rw [setSpanStatus_recording]; exact hrec
  have h2 : (if st > 0 then
      setAttr (setSpanStatus s st) cfg [⟨"http.response.status_code", .int st⟩]
    else setSpanStatus s st).recording = true := by
    split
    · rw [setAttr_recording]; exact h1
    · exact h1
  rw [dumpResponseHeaders_intAttrs _ _ _ h2]
  split
  case isTrue h =>
    rw [setAttr_attrs_of_recording _ _ _ h1, intAttrs_append, intAttrs_prepared_int,
      setSpanStatus_attrs]
  case isFalse h =>
    rw [setSpanStatus_attrs, List.append_nil]

theorem dumpResp_intAttrs_of_recording (c : EchoCtx) (cfg : OtelConfig) (s : Span)
    (rd : Option RespDumper) (err : Option GoError) (srb : Bool)
    (hrec : s.recording = true) :
    intAttrs (dumpResp c cfg s rd err srb).attrs =
      intAttrs s.attrs ++
        (if responseStatus c rd err > 0 then
          [⟨prepareTagName "http.response.status_code" cfg.limitNameSize,
            .int (responseStatus c rd err)⟩]
        else []) := by
  cases rd with
  | none =>
      simp only [dumpResp]
      split
      · exact statusPhase_intAttrs c cfg s _ hrec
      · exact statusPhase_intAttrs c cfg s _ hrec
  | some d =>
      simp only [dumpResp]
      split
      · rw [dumpResponseBody_intAttrs _ _ _ _ (statusPhase_recording c cfg s _ hrec)]
        exact statusPhase_intAttrs c cfg s _ hrec
      · exact statusPhase_intAttrs c cfg s _ hrec

/-- A fresh recording span fixture. -/
def spW : Span :=
  { name := "s", recording := true, attrs := [], errorEvents := [], status := .unset,
    ended := false }

/-- A response-capture shim fixture that saw status 404. -/
def rd404W : RespDumper := { captured := "nf", statusCode := 404 }

/- ### C4 -/

/-- C4: for a recording (traced) span, `dumpResp` derives the span status
from the resolved final HTTP status (`responseStatus`): `≥ 400` maps to
Error, `200–399` maps to Ok, anything else — including an unknown/zero
status — maps to Unset; and the integer status-code attribute is attached
if and only if the resolved status is positive (the attribute list gains
exactly the status-code attribute for a positive status and no integer
attribute otherwise). -/
theorem C4_span_status_derivation (c : EchoCtx) (cfg : OtelConfig) (s : Span)
    (rd : Option RespDumper) (err : Option GoError) (srb : Bool)
    (hrec : s.recording = true) :
    (400 ≤ responseStatus c rd err →
      (dumpResp c cfg s rd err srb).status = SpanStatus.error) ∧
    (200 ≤ responseStatus c rd err ∧ responseStatus c rd err ≤ 399 →
      (dumpResp c cfg s rd err srb).status = SpanStatus.ok) ∧
    (responseStatus c rd err < 200 →
      (dumpResp c cfg s rd err srb).status = SpanStatus.unset) ∧
    intAttrs (dumpResp c cfg s rd err srb).attrs =
      intAttrs s.attrs ++
        (if responseStatus c rd err > 0 then
          [⟨prepareTagName "http.response.status_code" cfg.limitNameSize,
            .int (responseStatus c rd err)⟩]
        else []) := by
  refine ⟨?_, ?_, ?_, dumpResp_intAttrs_of_recording c cfg s rd err srb hrec⟩
  · intro h
    rw [dumpResp_status_of_recording c cfg s rd err srb hrec, if_pos h]
  · intro h
    rw [dumpResp_status_of_recording c cfg s rd err srb hrec,
      if_neg (by omega), if_pos h.1]
  · intro h
    rw [dumpResp_status_of_recording c cfg s rd err srb hrec,
      if_neg (by omega), if_neg (by omega)]

/-- C4 witness: the status-derivation theorem at a fresh recording span with
a captured 404 response. -/
theorem C4_span_status_derivation_witness :
    spW.recording = true ∧
    ((400 ≤ responseStatus ctxW (some rd404W) none →
        (dumpResp ctxW cfgW spW (some rd404W) none false).status = SpanStatus.error) ∧
      (200 ≤ responseStatus ctxW (some rd404W) none ∧
          responseStatus ctxW (some rd404W) none ≤ 399 →
        (dumpResp ctxW cfgW spW (some rd404W) none false).status = SpanStatus.ok) ∧
      (responseStatus ctxW (some rd404W) none < 200 →
        (dumpResp ctxW cfgW spW (some rd404W) none false).status = SpanStatus.unset) ∧
      intAttrs (dumpResp ctxW cfgW spW (some rd404W) none false).attrs =
        intAttrs spW.attrs ++
          (if responseStatus ctxW (some rd404W) none > 0 then
            [⟨prepareTagName "http.response.status_code" cfgW.limitNameSize,
              .int (responseStatus ctxW (some rd404W) none)⟩]
          else [])) :=
  ⟨rfl, C4_span_status_derivation ctxW cfgW spW (some rd404W) none false rfl⟩
